import Mathlib

/-!
Shallow embedding of the board-rendering code in src/window.rs.

The program draws an 8 x 8 checkerboard into a normalized [-1,1] x [-1,1]
viewport.  All coordinate arithmetic in the source uses f32, but every value
produced is a small dyadic rational (a multiple of 1/4 obtained from integers
in [-4,4] and the constant 2/8), so f32 arithmetic is exact on them and the
embedding uses ℚ.

GPU calls (buffer upload, draw calls) are modelled by recording the data the
code hands to them; the graphics driver and the windowing library are external
collaborators, modelled as explicit inputs where their answers matter
(shader-compile and program-link results).
-/

/-- The constant `square_size: f32 = 2.0 / 8.0` from `generate_vao`. -/
def square_size : ℚ := 2 / 8

/-- The index list `[0, 1, 3, 1, 2, 3]` (two triangles) uploaded for every
square; the Rust array is inferred as `[i32; 6]`. -/
def indices : List ℤ := [0, 1, 3, 1, 2, 3]

/-- The GPU-resident mesh referenced by one vertex-array-object handle:
the flat vertex buffer (12 floats = 4 vertices of x,y,z) and the index
buffer uploaded for it in `generate_vao`. -/
structure VAO where
  vertices : List ℚ
  indices : List ℤ

/-- The closure `generate_vao = |x, y| ...` in `Game::generate_vaos`:
builds the 12-float vertex array (top right, bottom right, bottom left,
top left; z = 0) and the 6-entry index buffer, and uploads them.  The model
returns the uploaded mesh in place of the opaque GLuint handle. -/
def generate_vao (x y : ℚ) : VAO :=
  { vertices :=
      [x * square_size + square_size, y * square_size + square_size, 0,
       x * square_size + square_size, y * square_size,               0,
       x * square_size,               y * square_size,               0,
       x * square_size,               y * square_size + square_size, 0],
    indices := indices }

/-- The mesh generated for board square `(file, rank)`: the loop body of
`Game::generate_vaos` calls `generate_vao(i as f32 - 4.0, j as f32 - 4.0)`. -/
def squareQuad (f r : ℕ) : VAO :=
  generate_vao ((f : ℚ) - 4) ((r : ℚ) - 4)

/-- `Game::generate_vaos`: starts from the zero-initialised handle array
`[0 as GLuint; 64]` (modelled as 64 `none` slots) and assigns slot
`i * 8 + j` the handle produced by `generate_vao(i - 4, j - 4)` for
`i` in `0..8`, `j` in `0..8`. -/
def generate_vaos : List (Option VAO) :=
  (List.range 8).foldl
    (fun acc i =>
      (List.range 8).foldl
        (fun acc j =>
          acc.set (i * 8 + j) (some (generate_vao ((i : ℚ) - 4) ((j : ℚ) - 4))))
        acc)
    (List.replicate 64 none)

/-- The two shading programs of the game. -/
inductive SquareColor
  | black
  | white
deriving DecidableEq

/-- The local `square_color` choice in `Game::draw_board`:
`if (i + j) % 2 == 0 { &self.black_shader } else { &self.white_shader }`. -/
def square_color (i j : ℕ) : SquareColor :=
  if (i + j) % 2 = 0 then SquareColor.black else SquareColor.white

/-- `Game::draw_board`: for `i` in `0..8`, `j` in `0..8` issue
`draw_square(square_color, self.board[i * 8 + j])`.  The model records the
sequence of draw calls as (program, mesh handle) pairs in issue order. -/
def draw_board : List (SquareColor × Option VAO) :=
  (List.range 8).flatMap
    (fun i =>
      (List.range 8).map
        (fun j => (square_color i j, generate_vaos.getD (i * 8 + j) none)))

/-- The x coordinate of vertex `k` (0 ≤ k < 4) in a mesh's flat vertex
buffer (stride 3, offset 0, matching the `VertexAttribPointer` layout). -/
def cornerX (q : VAO) (k : ℕ) : ℚ :=
  q.vertices.getD (3 * k) 0

/-- The y coordinate of vertex `k` of a mesh (stride 3, offset 1). -/
def cornerY (q : VAO) (k : ℕ) : ℚ :=
  q.vertices.getD (3 * k + 1) 0

/-- The z coordinate of vertex `k` of a mesh (stride 3, offset 2). -/
def cornerZ (q : VAO) (k : ℕ) : ℚ :=
  q.vertices.getD (3 * k + 2) 0

/-- The centroid of the four corner vertices of a quad. -/
def quadCenter (q : VAO) : ℚ × ℚ :=
  ((cornerX q 0 + cornerX q 1 + cornerX q 2 + cornerX q 3) / 4,
   (cornerY q 0 + cornerY q 1 + cornerY q 2 + cornerY q 3) / 4)

/-- Membership of a point in the closed axis-aligned rectangle spanned by a
quad (corner 2 is bottom left, corner 0 is top right). -/
def inQuad (q : VAO) (p : ℚ × ℚ) : Prop :=
  cornerX q 2 ≤ p.1 ∧ p.1 ≤ cornerX q 0 ∧ cornerY q 2 ≤ p.2 ∧ p.2 ≤ cornerY q 0

/-- Membership in the open interior of the rectangle spanned by a quad. -/
def inQuadInterior (q : VAO) (p : ℚ × ℚ) : Prop :=
  cornerX q 2 < p.1 ∧ p.1 < cornerX q 0 ∧ cornerY q 2 < p.2 ∧ p.2 < cornerY q 0

/-- The area of the rectangle spanned by a quad. -/
def quadArea (q : VAO) : ℚ :=
  (cornerX q 0 - cornerX q 2) * (cornerY q 0 - cornerY q 2)

/-- The keys of the windowing library that matter for the embedding:
`Key::Escape` plus representative other keys. -/
inductive GlfwKey
  | escape
  | space
  | enter
  | w
  | a
  | s
  | d
deriving DecidableEq

/-- Key actions of the windowing library: press, release, repeat. -/
inductive GlfwAction
  | press
  | release
  | rept
deriving DecidableEq

/-- Window events: a key event (key, scancode, action, modifiers) or any
other kind of event. -/
inductive GlfwWindowEvent
  | key (k : GlfwKey) (scancode : ℤ) (action : GlfwAction) (mods : ℤ)
  | other
deriving DecidableEq

/-- The event match in `Game::handle_window_event`: on
`Key(Key::Escape, _, Action::Press, _)` call `set_should_close(true)`;
every other event leaves the flag alone.  The model maps the prior value of
the window's close-requested flag to its value after processing one event. -/
def handle_window_event (shouldClose : Bool) (event : GlfwWindowEvent) : Bool :=
  match event with
  | GlfwWindowEvent.key GlfwKey.escape _ GlfwAction.press _ => true
  | _ => shouldClose

/-- What the graphics driver reports for one shader-compile request: the
fresh shader id, the `COMPILE_STATUS` integer (0 means failure) and the
info log it would write back. -/
structure DriverShaderResult where
  id : ℕ
  compile_status : ℤ
  info_log : String

/-- What the graphics driver reports for one program-link request. -/
structure DriverLinkResult where
  id : ℕ
  link_status : ℤ
  info_log : String

/-- `shader_from_source`: create a shader, compile it, read back
`COMPILE_STATUS`; if it is 0, fetch the info log and return it as the error
string, otherwise return the shader id. -/
def shader_from_source (driver : DriverShaderResult) : Except String ℕ :=
  if driver.compile_status = 0 then
    Except.error driver.info_log
  else
    Except.ok driver.id

/-- `Program::from_shaders`: attach the given shaders, link, read back
`LINK_STATUS`; if it is 0, return the program info log as the error string,
otherwise detach and return the program id. -/
def from_shaders (shaderIds : List ℕ) (driver : DriverLinkResult) : Except String ℕ :=
  if driver.link_status = 0 then
    Except.error driver.info_log
  else
    Except.ok driver.id

/-- Rust's `Result::unwrap`: a success yields the value, an error aborts the
process.  The abort (panic) is modelled as `none`. -/
def unwrapOrPanic {α : Type} : Except String α → Option α
  | Except.ok a => some a
  | Except.error _ => none

/-- `Game::generate_shaders`: compile the white vertex and fragment shaders
and link them, then the black pair, unwrapping every step; the result is the
(white, black) program pair, or a startup abort (`none`) if any step failed. -/
def generate_shaders (wv wf bv bf : DriverShaderResult)
    (wl bl : DriverLinkResult) : Option (ℕ × ℕ) := do
  let white_vert ← unwrapOrPanic (shader_from_source wv)
  let white_frag ← unwrapOrPanic (shader_from_source wf)
  let white_shaders ← unwrapOrPanic (from_shaders [white_vert, white_frag] wl)
  let black_vert ← unwrapOrPanic (shader_from_source bv)
  let black_frag ← unwrapOrPanic (shader_from_source bf)
  let black_shaders ← unwrapOrPanic (from_shaders [black_vert, black_frag] bl)
  some (white_shaders, black_shaders)

/-- Byte size of a `GLfloat` (f32), as used by `size_of::<GLfloat>()`. -/
def size_of_GLfloat : ℕ := 4

/-- Byte size of an `i32`, the element type of the index array. -/
def size_of_i32 : ℕ := 4

/-- The byte-size argument the code passes to `BufferData` for the element
buffer: `indices.len() * size_of::<GLfloat>()`. -/
def ebo_buffer_size_arg : ℕ := indices.length * size_of_GLfloat

/-- The actual byte size of the element buffer data: six `i32` values. -/
def ebo_buffer_actual_size : ℕ := indices.length * size_of_i32

/-! ## Helper lemmas -/

theorem cornerX_topRight (f r : ℕ) :
    cornerX (squareQuad f r) 0 = ((f : ℚ) - 4) * square_size + square_size := rfl

theorem cornerY_topRight (f r : ℕ) :
    cornerY (squareQuad f r) 0 = ((r : ℚ) - 4) * square_size + square_size := rfl

theorem cornerX_bottomRight (f r : ℕ) :
    cornerX (squareQuad f r) 1 = ((f : ℚ) - 4) * square_size + square_size := rfl

theorem cornerY_bottomRight (f r : ℕ) :
    cornerY (squareQuad f r) 1 = ((r : ℚ) - 4) * square_size := rfl

theorem cornerX_bottomLeft (f r : ℕ) :
    cornerX (squareQuad f r) 2 = ((f : ℚ) - 4) * square_size := rfl

theorem cornerY_bottomLeft (f r : ℕ) :
    cornerY (squareQuad f r) 2 = ((r : ℚ) - 4) * square_size := rfl

theorem cornerX_topLeft (f r : ℕ) :
    cornerX (squareQuad f r) 3 = ((f : ℚ) - 4) * square_size := rfl

theorem cornerY_topLeft (f r : ℕ) :
    cornerY (squareQuad f r) 3 = ((r : ℚ) - 4) * square_size + square_size := rfl

theorem black_ne_white : SquareColor.black ≠ SquareColor.white :=
  fun h => SquareColor.noConfusion h

theorem coord_le_seven (n : ℕ) (h : n < 8) : (n : ℚ) ≤ 7 := by
  exact_mod_cast Nat.lt_succ_iff.mp h

theorem coord_nonneg (n : ℕ) : (0 : ℚ) ≤ (n : ℚ) := Nat.cast_nonneg n

/-! ## Claim theorems -/

/-- Claim C1, counterexample: the quad generated for square (0, 0) is not
centered at ((0 − 4)·s, (0 − 4)·s) = (−1, −1); its centroid is
(−7/8, −7/8), since ((file−4)·s, (rank−4)·s) is the bottom-left corner. -/
theorem quad_center_counterexample :
    quadCenter (squareQuad 0 0) ≠
      ((((0 : ℕ) : ℚ) - 4) * square_size, (((0 : ℕ) : ℚ) - 4) * square_size) := by
  intro h
  have h1 := congrArg Prod.fst h
  simp only [quadCenter, cornerX_topRight, cornerX_bottomRight, cornerX_bottomLeft,
    cornerX_topLeft, square_size] at h1
  norm_num at h1

/-- Claim C1, amended: for every (file, rank) in [0,8)×[0,8) with s = 2/8,
the generated quad has its bottom-left corner at ((file−4)·s, (rank−4)·s)
and is therefore centered at ((file−4)·s + s/2, (rank−4)·s + s/2). -/
theorem quad_center_amended :
    ∀ f r : Fin 8,
      (cornerX (squareQuad f r) 2, cornerY (squareQuad f r) 2) =
        ((((f : ℕ) : ℚ) - 4) * square_size, (((r : ℕ) : ℚ) - 4) * square_size) ∧
      quadCenter (squareQuad f r) =
        ((((f : ℕ) : ℚ) - 4) * square_size + square_size / 2,
         (((r : ℕ) : ℚ) - 4) * square_size + square_size / 2) := by
  intro f r
  refine ⟨rfl, ?_⟩
  simp only [quadCenter, cornerX_topRight, cornerX_bottomRight, cornerX_bottomLeft,
    cornerX_topLeft, cornerY_topRight, cornerY_bottomRight, cornerY_bottomLeft,
    cornerY_topRight, cornerY_topLeft, Prod.mk.injEq]
  constructor <;> ring

/-- Claim C2: at draw time every square (file, rank) uses the black shading
program exactly when (file + rank) % 2 = 0 and the white one otherwise; the
choice is the stateless function `square_color` of the coordinates, applied
inside the draw loop rather than read from per-square state. -/
theorem draw_color_is_parity :
    ∀ f r : Fin 8,
      (draw_board.getD ((f : ℕ) * 8 + (r : ℕ)) (SquareColor.white, none)).1 =
        square_color (f : ℕ) (r : ℕ) ∧
      (square_color (f : ℕ) (r : ℕ) = SquareColor.black ↔ ((f : ℕ) + (r : ℕ)) % 2 = 0) := by
  intro f r
  constructor
  · fin_cases f <;> fin_cases r <;> rfl
  · by_cases h : ((f : ℕ) + (r : ℕ)) % 2 = 0
    · simp [square_color, h]
    · simp [square_color, h, black_ne_white]

/-- Claim C3: `generate_vaos` produces 64 slots and stores the mesh built
for coordinates (file, rank) at index file · 8 + rank, and the draw loop
reads the handle for (file, rank) from the same index, so each draw call
pairs every square with the mesh generated for its own coordinates. -/
theorem board_handles_row_major :
    generate_vaos.length = 64 ∧
    (∀ f r : Fin 8,
      generate_vaos.getD ((f : ℕ) * 8 + (r : ℕ)) none = some (squareQuad (f : ℕ) (r : ℕ))) ∧
    (∀ f r : Fin 8,
      draw_board.getD ((f : ℕ) * 8 + (r : ℕ)) (SquareColor.white, none) =
        (square_color (f : ℕ) (r : ℕ), some (squareQuad (f : ℕ) (r : ℕ)))) := by
  refine ⟨rfl, ?_, ?_⟩
  · intro f r
    fin_cases f <;> fin_cases r <;> rfl
  · intro f r
    fin_cases f <;> fin_cases r <;> rfl

/-- Claim C4: every generated quad mesh has exactly 4 vertices of 3 floats
each (12 floats), all with z = 0; reading the corners in buffer order gives
top-right, bottom-right, bottom-left, top-left (offsets +s/+s, +s/0, 0/0,
0/+s from the bottom-left corner, with s = square_size > 0); and the index
buffer is [0, 1, 3, 1, 2, 3], two triangles. -/
theorem quad_mesh_structure :
    ∀ f r : Fin 8,
      (squareQuad (f : ℕ) (r : ℕ)).vertices.length = 12 ∧
      (cornerZ (squareQuad (f : ℕ) (r : ℕ)) 0 = 0 ∧
       cornerZ (squareQuad (f : ℕ) (r : ℕ)) 1 = 0 ∧
       cornerZ (squareQuad (f : ℕ) (r : ℕ)) 2 = 0 ∧
       cornerZ (squareQuad (f : ℕ) (r : ℕ)) 3 = 0) ∧
      0 < square_size ∧
      (cornerX (squareQuad (f : ℕ) (r : ℕ)) 0 =
         cornerX (squareQuad (f : ℕ) (r : ℕ)) 2 + square_size ∧
       cornerY (squareQuad (f : ℕ) (r : ℕ)) 0 =
         cornerY (squareQuad (f : ℕ) (r : ℕ)) 2 + square_size) ∧
      (cornerX (squareQuad (f : ℕ) (r : ℕ)) 1 =
         cornerX (squareQuad (f : ℕ) (r : ℕ)) 2 + square_size ∧
       cornerY (squareQuad (f : ℕ) (r : ℕ)) 1 =
         cornerY (squareQuad (f : ℕ) (r : ℕ)) 2) ∧
      (cornerX (squareQuad (f : ℕ) (r : ℕ)) 3 =
         cornerX (squareQuad (f : ℕ) (r : ℕ)) 2 ∧
       cornerY (squareQuad (f : ℕ) (r : ℕ)) 3 =
         cornerY (squareQuad (f : ℕ) (r : ℕ)) 2 + square_size) ∧
      (squareQuad (f : ℕ) (r : ℕ)).indices = [0, 1, 3, 1, 2, 3] := by
  intro f r
  refine ⟨rfl, ⟨rfl, rfl, rfl, rfl⟩, by norm_num [square_size], ⟨rfl, rfl⟩, ⟨rfl, rfl⟩,
    ⟨rfl, rfl⟩, rfl⟩

/-- Claim C6: for every (file, rank) in [0,8)×[0,8), all four corner
vertices of the generated quad lie within [-1,1]×[-1,1]. -/
theorem corners_in_viewport :
    ∀ f r : Fin 8,
      (-1 ≤ cornerX (squareQuad (f : ℕ) (r : ℕ)) 0 ∧
        cornerX (squareQuad (f : ℕ) (r : ℕ)) 0 ≤ 1 ∧
        -1 ≤ cornerY (squareQuad (f : ℕ) (r : ℕ)) 0 ∧
        cornerY (squareQuad (f : ℕ) (r : ℕ)) 0 ≤ 1) ∧
      (-1 ≤ cornerX (squareQuad (f : ℕ) (r : ℕ)) 1 ∧
        cornerX (squareQuad (f : ℕ) (r : ℕ)) 1 ≤ 1 ∧
        -1 ≤ cornerY (squareQuad (f : ℕ) (r : ℕ)) 1 ∧
        cornerY (squareQuad (f : ℕ) (r : ℕ)) 1 ≤ 1) ∧
      (-1 ≤ cornerX (squareQuad (f : ℕ) (r : ℕ)) 2 ∧
        cornerX (squareQuad (f : ℕ) (r : ℕ)) 2 ≤ 1 ∧
        -1 ≤ cornerY (squareQuad (f : ℕ) (r : ℕ)) 2 ∧
        cornerY (squareQuad (f : ℕ) (r : ℕ)) 2 ≤ 1) ∧
      (-1 ≤ cornerX (squareQuad (f : ℕ) (r : ℕ)) 3 ∧
        cornerX (squareQuad (f : ℕ) (r : ℕ)) 3 ≤ 1 ∧
        -1 ≤ cornerY (squareQuad (f : ℕ) (r : ℕ)) 3 ∧
        cornerY (squareQuad (f : ℕ) (r : ℕ)) 3 ≤ 1) := by
  intro f r
  have hf1 : ((f : ℕ) : ℚ) ≤ 7 := coord_le_seven (f : ℕ) f.isLt
  have hf0 : (0 : ℚ) ≤ ((f : ℕ) : ℚ) := coord_nonneg (f : ℕ)
  have hr1 : ((r : ℕ) : ℚ) ≤ 7 := coord_le_seven (r : ℕ) r.isLt
  have hr0 : (0 : ℚ) ≤ ((r : ℕ) : ℚ) := coord_nonneg (r : ℕ)
  simp only [cornerX_topRight, cornerX_bottomRight, cornerX_bottomLeft, cornerX_topLeft,
    cornerY_topRight, cornerY_bottomRight, cornerY_bottomLeft, cornerY_topLeft, square_size]
  repeat' apply And.intro
  all_goals linarith

/-- Claim C7: the color-class function alternates along each row and is
constant along diagonals: square_color f r = square_color (f+1) (r+1) and
square_color f r ≠ square_color (f+1) r for all in-range f, r. -/
theorem color_parity (f r : ℕ) (hf : f + 1 < 8) (hr : r + 1 < 8) :
    square_color f r = square_color (f + 1) (r + 1) ∧
    square_color f r ≠ square_color (f + 1) r := by
  constructor
  · have h2 : (f + 1 + (r + 1)) % 2 = (f + r) % 2 := by omega
    simp [square_color, h2]
  · by_cases h : (f + r) % 2 = 0
    · have h1 : (f + 1 + r) % 2 = 1 := by omega
      simp [square_color, h, h1, black_ne_white]
    · have h1 : (f + 1 + r) % 2 = 0 := by omega
      simp [square_color, h, h1]

/-- Witness for C7 at (f, r) = (2, 3). -/
theorem color_parity_witness :
    2 + 1 < 8 ∧ 3 + 1 < 8 ∧
    (square_color 2 3 = square_color (2 + 1) (3 + 1) ∧
     square_color 2 3 ≠ square_color (2 + 1) 3) :=
  ⟨by norm_num, by norm_num, color_parity 2 3 (by norm_num) (by norm_num)⟩

/-- Claim C8: processing an Escape key-press event sets the close-requested
flag; processing any other key event (another key, or Escape with a
non-press action) leaves the flag unchanged — in particular unset if it was
unset. -/
theorem escape_press_requests_close :
    (∀ (sc m : ℤ) (s : Bool),
      handle_window_event s (GlfwWindowEvent.key GlfwKey.escape sc GlfwAction.press m) = true) ∧
    (∀ (k : GlfwKey) (sc : ℤ) (a : GlfwAction) (m : ℤ) (s : Bool),
      ¬(k = GlfwKey.escape ∧ a = GlfwAction.press) →
      handle_window_event s (GlfwWindowEvent.key k sc a m) = s) := by
  constructor
  · intro sc m s
    rfl
  · intro k sc a m s h
    cases k <;> cases a <;> simp_all [handle_window_event]

/-- Witness for C8: a press of W with the flag unset leaves it unset. -/
theorem escape_press_requests_close_witness :
    ¬(GlfwKey.w = GlfwKey.escape ∧ GlfwAction.press = GlfwAction.press) ∧
    handle_window_event false (GlfwWindowEvent.key GlfwKey.w 0 GlfwAction.press 0) = false :=
  ⟨fun h => GlfwKey.noConfusion h.1,
   escape_press_requests_close.2 GlfwKey.w 0 GlfwAction.press 0 false
     (fun h => GlfwKey.noConfusion h.1)⟩

/-- Claim C9: a failed shader compile or program link surfaces the driver's
info log as the error string, and a failure anywhere in `generate_shaders`
aborts startup (no fallback shader program is produced); when every step
succeeds, no error is produced and both programs are returned. -/
theorem shader_errors_fatal :
    (∀ d : DriverShaderResult, d.compile_status = 0 →
      shader_from_source d = Except.error d.info_log) ∧
    (∀ d : DriverShaderResult, d.compile_status ≠ 0 →
      shader_from_source d = Except.ok d.id) ∧
    (∀ (ids : List ℕ) (d : DriverLinkResult), d.link_status = 0 →
      from_shaders ids d = Except.error d.info_log) ∧
    (∀ (ids : List ℕ) (d : DriverLinkResult), d.link_status ≠ 0 →
      from_shaders ids d = Except.ok d.id) ∧
    (∀ (wv wf bv bf : DriverShaderResult) (wl bl : DriverLinkResult),
      wv.compile_status = 0 ∨ wf.compile_status = 0 ∨ bv.compile_status = 0 ∨
        bf.compile_status = 0 ∨ wl.link_status = 0 ∨ bl.link_status = 0 →
      generate_shaders wv wf bv bf wl bl = none) ∧
    (∀ (wv wf bv bf : DriverShaderResult) (wl bl : DriverLinkResult),
      wv.compile_status ≠ 0 → wf.compile_status ≠ 0 → bv.compile_status ≠ 0 →
      bf.compile_status ≠ 0 → wl.link_status ≠ 0 → bl.link_status ≠ 0 →
      generate_shaders wv wf bv bf wl bl = some (wl.id, bl.id)) := by
  refine ⟨?_, ?_, ?_, ?_, ?_, ?_⟩
  · intro d h
    simp [shader_from_source, h]
  · intro d h
    simp [shader_from_source, h]
  · intro ids d h
    simp [from_shaders, h]
  · intro ids d h
    simp [from_shaders, h]
  · intro wv wf bv bf wl bl h
    rcases h with h | h | h | h | h | h <;>
      simp [generate_shaders, shader_from_source, from_shaders, unwrapOrPanic, h]
  · intro wv wf bv bf wl bl h1 h2 h3 h4 h5 h6
    simp [generate_shaders, shader_from_source, from_shaders, unwrapOrPanic,
      h1, h2, h3, h4, h5, h6]

/-- Witness for C9: a white-vertex compile failure aborts startup, and an
all-success run yields the two linked programs. -/
theorem shader_errors_fatal_witness :
    shader_from_source ⟨1, 0, "bad shader"⟩ = Except.error "bad shader" ∧
    generate_shaders ⟨1, 0, "bad shader"⟩ ⟨2, 1, ""⟩ ⟨3, 1, ""⟩ ⟨4, 1, ""⟩
      ⟨10, 1, ""⟩ ⟨11, 1, ""⟩ = none ∧
    generate_shaders ⟨1, 1, ""⟩ ⟨2, 1, ""⟩ ⟨3, 1, ""⟩ ⟨4, 1, ""⟩
      ⟨10, 1, ""⟩ ⟨11, 1, ""⟩ = some (10, 11) :=
  ⟨shader_errors_fatal.1 ⟨1, 0, "bad shader"⟩ rfl,
   shader_errors_fatal.2.2.2.2.1 ⟨1, 0, "bad shader"⟩ ⟨2, 1, ""⟩ ⟨3, 1, ""⟩ ⟨4, 1, ""⟩
     ⟨10, 1, ""⟩ ⟨11, 1, ""⟩ (Or.inl rfl),
   shader_errors_fatal.2.2.2.2.2 ⟨1, 1, ""⟩ ⟨2, 1, ""⟩ ⟨3, 1, ""⟩ ⟨4, 1, ""⟩
     ⟨10, 1, ""⟩ ⟨11, 1, ""⟩ (by norm_num) (by norm_num) (by norm_num) (by norm_num)
     (by norm_num) (by norm_num)⟩

/-- Claim C10: the byte size passed when uploading a square's index buffer,
indices.len() * size_of::<GLfloat>(), equals the actual byte size of the six
i32 indices, 6 * size_of::<i32>() = 24 bytes, because GLfloat and i32 have
the same size, so the full index list is uploaded exactly. -/
theorem ebo_upload_size_correct :
    ebo_buffer_size_arg = ebo_buffer_actual_size ∧
    size_of_GLfloat = size_of_i32 ∧
    ebo_buffer_size_arg = 24 :=
  ⟨rfl, rfl, rfl⟩

theorem interval_disjoint_aux (a b : ℕ) (hab : a < b) (x : ℚ)
    (h1 : x < ((a : ℚ) - 4) * square_size + square_size)
    (h2 : ((b : ℚ) - 4) * square_size < x) : False := by
  have hb : (a : ℚ) + 1 ≤ (b : ℚ) := by exact_mod_cast hab
  rw [square_size] at h1 h2
  linarith

theorem cover1D (x : ℚ) (h1 : -1 ≤ x) (h2 : x ≤ 1) :
    ∃ f : ℕ, f < 8 ∧ ((f : ℚ) - 4) * square_size ≤ x ∧
      x ≤ ((f : ℚ) - 4) * square_size + square_size := by
  rcases le_or_lt x (-(3 : ℚ) / 4) with hc1 | hc1
  · exact ⟨0, by norm_num, by push_cast; rw [square_size]; linarith,
      by push_cast; rw [square_size]; linarith⟩
  rcases le_or_lt x (-(1 : ℚ) / 2) with hc2 | hc2
  · exact ⟨1, by norm_num, by push_cast; rw [square_size]; linarith,
      by push_cast; rw [square_size]; linarith⟩
  rcases le_or_lt x (-(1 : ℚ) / 4) with hc3 | hc3
  · exact ⟨2, by norm_num, by push_cast; rw [square_size]; linarith,
      by push_cast; rw [square_size]; linarith⟩
  rcases le_or_lt x 0 with hc4 | hc4
  · exact ⟨3, by norm_num, by push_cast; rw [square_size]; linarith,
      by push_cast; rw [square_size]; linarith⟩
  rcases le_or_lt x ((1 : ℚ) / 4) with hc5 | hc5
  · exact ⟨4, by norm_num, by push_cast; rw [square_size]; linarith,
      by push_cast; rw [square_size]; linarith⟩
  rcases le_or_lt x ((1 : ℚ) / 2) with hc6 | hc6
  · exact ⟨5, by norm_num, by push_cast; rw [square_size]; linarith,
      by push_cast; rw [square_size]; linarith⟩
  rcases le_or_lt x ((3 : ℚ) / 4) with hc7 | hc7
  · exact ⟨6, by norm_num, by push_cast; rw [square_size]; linarith,
      by push_cast; rw [square_size]; linarith⟩
  exact ⟨7, by norm_num, by push_cast; rw [square_size]; linarith,
    by push_cast; rw [square_size]; linarith⟩

theorem squareQuad_inj (f r f2 r2 : ℕ) (h : squareQuad f r = squareQuad f2 r2) :
    f = f2 ∧ r = r2 := by
  have hs : square_size ≠ 0 := by rw [square_size]; norm_num
  have hx := congrArg (fun q => cornerX q 2) h
  have hy := congrArg (fun q => cornerY q 2) h
  simp only [cornerX_bottomLeft, cornerY_bottomLeft] at hx hy
  constructor
  · have h4 : (f : ℚ) - 4 = (f2 : ℚ) - 4 := mul_right_cancel₀ hs hx
    have : (f : ℚ) = (f2 : ℚ) := by linarith
    exact_mod_cast this
  · have h4 : (r : ℚ) - 4 = (r2 : ℚ) - 4 := mul_right_cancel₀ hs hy
    have : (r : ℚ) = (r2 : ℚ) := by linarith
    exact_mod_cast this

theorem quads_disjoint (f r f2 r2 : ℕ) (hne : ¬(f = f2 ∧ r = r2)) (p : ℚ × ℚ) :
    ¬(inQuadInterior (squareQuad f r) p ∧ inQuadInterior (squareQuad f2 r2) p) := by
  intro hcon
  obtain ⟨ha, hb⟩ := hcon
  simp only [inQuadInterior, cornerX_bottomLeft, cornerX_topRight,
    cornerY_bottomLeft, cornerY_topRight] at ha hb
  obtain ⟨ha1, ha2, ha3, ha4⟩ := ha
  obtain ⟨hb1, hb2, hb3, hb4⟩ := hb
  rcases Nat.lt_trichotomy f f2 with hlt | heq | hlt
  · exact interval_disjoint_aux f f2 hlt p.1 ha2 hb1
  · rcases Nat.lt_trichotomy r r2 with hlt2 | heq2 | hlt2
    · exact interval_disjoint_aux r r2 hlt2 p.2 ha4 hb3
    · exact hne ⟨heq, heq2⟩
    · exact interval_disjoint_aux r2 r hlt2 p.2 hb4 ha3
  · exact interval_disjoint_aux f2 f hlt p.1 hb2 ha1

theorem quadArea_squareQuad (f r : ℕ) : quadArea (squareQuad f r) = 1 / 16 := by
  simp only [quadArea, cornerX_topRight, cornerX_bottomLeft, cornerY_topRight,
    cornerY_bottomLeft]
  rw [square_size]
  ring

theorem shared_edge (f r : ℕ) (p : ℚ × ℚ) :
    (inQuad (squareQuad f r) p ∧ inQuad (squareQuad (f + 1) r) p) ↔
      (p.1 = ((f : ℚ) - 3) * (1 / 4) ∧
       cornerY (squareQuad f r) 2 ≤ p.2 ∧ p.2 ≤ cornerY (squareQuad f r) 0) := by
  simp only [inQuad, cornerX_bottomLeft, cornerX_topRight, cornerY_bottomLeft,
    cornerY_topRight]
  push_cast
  rw [square_size]
  constructor
  · rintro ⟨⟨a1, a2, a3, a4⟩, b1, b2, b3, b4⟩
    exact ⟨by linarith, by linarith, by linarith⟩
  · rintro ⟨e1, e2, e3⟩
    exact ⟨⟨by linarith, by linarith, by linarith, by linarith⟩,
      by linarith, by linarith, by linarith, by linarith⟩

/-- Claim C5: the 64 generated quads tile the viewport [-1,1]×[-1,1]
exactly: the quad map is injective on coordinates (64 distinct quads), the
open interiors of quads of distinct squares are disjoint (zero overlap),
every point of the viewport is covered by some quad, the areas sum to 4,
and horizontally adjacent squares (f, r) and (f+1, r) share exactly the
vertical edge at x = (f − 3)·0.25. -/
theorem board_tiles_viewport :
    (∀ f r f2 r2 : Fin 8,
      squareQuad (f : ℕ) (r : ℕ) = squareQuad (f2 : ℕ) (r2 : ℕ) → f = f2 ∧ r = r2) ∧
    (∀ f r f2 r2 : Fin 8, ¬(f = f2 ∧ r = r2) → ∀ p : ℚ × ℚ,
      ¬(inQuadInterior (squareQuad (f : ℕ) (r : ℕ)) p ∧
        inQuadInterior (squareQuad (f2 : ℕ) (r2 : ℕ)) p)) ∧
    (∀ p : ℚ × ℚ, -1 ≤ p.1 → p.1 ≤ 1 → -1 ≤ p.2 → p.2 ≤ 1 →
      ∃ f r : Fin 8, inQuad (squareQuad (f : ℕ) (r : ℕ)) p) ∧
    (∑ f : Fin 8, ∑ r : Fin 8, quadArea (squareQuad (f : ℕ) (r : ℕ))) = 4 ∧
    (∀ f : Fin 7, ∀ r : Fin 8, ∀ p : ℚ × ℚ,
      (inQuad (squareQuad (f : ℕ) (r : ℕ)) p ∧
        inQuad (squareQuad ((f : ℕ) + 1) (r : ℕ)) p) ↔
      (p.1 = (((f : ℕ) : ℚ) - 3) * (1 / 4) ∧
        cornerY (squareQuad (f : ℕ) (r : ℕ)) 2 ≤ p.2 ∧
        p.2 ≤ cornerY (squareQuad (f : ℕ) (r : ℕ)) 0)) := by
  refine ⟨?_, ?_, ?_, ?_, ?_⟩
  · intro f r f2 r2 h
    have h2 := squareQuad_inj (f : ℕ) (r : ℕ) (f2 : ℕ) (r2 : ℕ) h
    exact ⟨Fin.ext h2.1, Fin.ext h2.2⟩
  · intro f r f2 r2 hne p
    apply quads_disjoint
    intro hcon
    exact hne ⟨Fin.ext hcon.1, Fin.ext hcon.2⟩
  · intro p h1 h2 h3 h4
    obtain ⟨f, hf, hfl, hfu⟩ := cover1D p.1 h1 h2
    obtain ⟨r, hr, hrl, hru⟩ := cover1D p.2 h3 h4
    refine ⟨⟨f, hf⟩, ⟨r, hr⟩, ?_⟩
    simp only [inQuad, cornerX_bottomLeft, cornerX_topRight, cornerY_bottomLeft,
      cornerY_topRight]
    exact ⟨hfl, hfu, hrl, hru⟩
  · simp only [quadArea_squareQuad]
    simp [Finset.sum_const, Finset.card_univ]
    norm_num
  · intro f r p
    exact shared_edge (f : ℕ) (r : ℕ) p

/-- Witness for C5: the viewport corner (-1, -1) is covered by some quad. -/
theorem board_tiles_viewport_witness :
    ∃ f r : Fin 8, inQuad (squareQuad (f : ℕ) (r : ℕ)) ((-1 : ℚ), (-1 : ℚ)) :=
  board_tiles_viewport.2.2.1 ((-1 : ℚ), (-1 : ℚ))
    (by norm_num) (by norm_num) (by norm_num) (by norm_num)
